import Mathlib

/-!
Verification of the token-validation and access-check core of the
`nestjs-auth` package (`auth-validator.service.ts`, `permission.guard.ts`,
`role.guard.ts`).

The embedding is shallow: the HTTP layer is modelled by an `HttpOutcome`
oracle (either a transport failure or a response with a status and a typed
body), and the axios behaviour of resolving only 2xx responses and
rejecting all others with `error.response.status` is made explicit by
`axiosOf`.  Time is a `Nat` (milliseconds, as `Date.now()`), the
module-level `tokenCache` Map is an association list, and the thrown
NestJS exceptions are the constructors of `AuthError`.
-/

namespace NestAuth

/-- `User` from `types.d.ts`: `{ sub; role?; permissions?; accessToken }`. -/
structure User where
  sub : String
  role : Option String
  permissions : Option (List String)
  accessToken : String
deriving DecidableEq, Repr

/-- The NestJS exceptions thrown by the core, plus a constructor for any
other (unclassified) runtime error that may propagate. -/
inductive AuthError where
  | unauthorized
  | serviceUnavailable
  | forbidden
  | badRequest
  | otherError (msg : String)
deriving DecidableEq, Repr

/-- Body of an introspection response, with the fields the code consumes:
`active` (read through `response.data?.active`, possibly absent), `sub`,
`role`, `permissions`. -/
structure IntrospectionBody where
  active : Option Bool
  sub : String
  role : Option String
  permissions : Option (List String)
deriving DecidableEq, Repr

/-- Outcome of one outbound HTTP call: either a transport-layer failure
(no response at all: connection error, timeout, or any error without an
HTTP response) or a response with a status code and a body. -/
inductive HttpOutcome (β : Type) where
  | transportError
  | response (status : Nat) (body : β)
deriving DecidableEq, Repr

/-- What `firstValueFrom(httpService.post ...)` delivers to the caller:
axios resolves only statuses in [200, 300); every other response rejects
with an `AxiosError` carrying `error.response.status`, and a transport
failure rejects with no status. -/
inductive AxiosResult (β : Type) where
  | ok (body : β)
  | err (status : Option Nat)
deriving DecidableEq, Repr

def axiosOf {β : Type} : HttpOutcome β → AxiosResult β
  | .transportError => .err none
  | .response s b => if 200 ≤ s ∧ s < 300 then .ok b else .err (some s)

/-- JS truthiness of an optional boolean field (`Boolean(x?.f)` and `!x?.f`):
an absent field is falsy. -/
def truthyField : Option Bool → Bool
  | none => false
  | some b => b

/-- The shared classifier `!status || status >= 500` applied to
`axiosErr?.response?.status`: an absent status is falsy, and so is the
number 0. -/
def isUnavailable : Option Nat → Bool
  | none => true
  | some s => s == 0 || 500 ≤ s

/-- One entry of the module-level `tokenCache`. -/
structure CacheEntry where
  user : User
  expiresAt : Nat
deriving DecidableEq, Repr

/-- The `tokenCache : Map<string, CacheEntry>`, as an association list. -/
abbrev TokenCache := List (String × CacheEntry)

def mapGet : TokenCache → String → Option CacheEntry
  | [], _ => none
  | (k, v) :: rest, t => if k = t then some v else mapGet rest t

def mapSet : TokenCache → String → CacheEntry → TokenCache
  | [], t, e => [(t, e)]
  | (k, v) :: rest, t, e => if k = t then (t, e) :: rest else (k, v) :: mapSet rest t e

def INTROSPECTION_TTL_MS : Nat := 30000

/-- The cache read of `validateToken` lines 33-39: skipped entirely in
development mode, otherwise an entry is returned only while
`expiresAt > Date.now()`. -/
def cacheLookup (dev : Bool) (cache : TokenCache) (token : String) (now : Nat) :
    Option User :=
  if dev then none
  else
    match mapGet cache token with
    | some e => if now < e.expiresAt then some e.user else none
    | none => none

/-- Result of one `validateToken` call: the returned value or thrown
exception, the cache state after the call, and whether an outbound
network request was issued. -/
structure ValidateOutcome where
  result : Except AuthError User
  cache : TokenCache
  networkCalled : Bool
deriving Repr

/-- `AuthValidatorService.validateToken` (auth-validator.service.ts 31-89).
`dev` is `isDevEnv()`, `now` is `Date.now()`, and `net` is the outcome of
the introspection POST when one is issued. -/
def validateToken (dev : Bool) (now : Nat) (net : HttpOutcome IntrospectionBody)
    (cache : TokenCache) (token : String) : ValidateOutcome :=
  match cacheLookup dev cache token now with
  | some u => ⟨.ok u, cache, false⟩
  | none =>
    match axiosOf net with
    | .ok body =>
      if truthyField body.active = false then
        ⟨.error .unauthorized, cache, true⟩
      else
        let user : User := ⟨body.sub, body.role, body.permissions, token⟩
        let cache' :=
          if dev then cache
          else mapSet cache token ⟨user, now + INTROSPECTION_TTL_MS⟩
        ⟨.ok user, cache', true⟩
    | .err st =>
      if isUnavailable st then ⟨.error .serviceUnavailable, cache, true⟩
      else ⟨.error .unauthorized, cache, true⟩

/-- `'any' | 'all'` match mode. -/
inductive MatchMode where
  | any
  | all
deriving DecidableEq, Repr

/-- `{ orgId, workspaceId?, objectId?, objectType? }` context argument of
`checkPermission` / `checkRole`. -/
structure AccessContext where
  orgId : String
  workspaceId : Option String
  objectId : Option String
  objectType : Option String
deriving DecidableEq, Repr

/-- The `permissionCheckData` payload built in `checkPermission`
(lines 108-116).  `matchMode` stands for the source field `match`, a
reserved word in Lean. -/
structure PermissionCheckData where
  userId : String
  orgId : String
  workspaceId : Option String
  objectType : Option String
  objectId : Option String
  permissions : List String
  matchMode : MatchMode
deriving DecidableEq, Repr

/-- The `roleCheckData` payload built in `checkRole` (lines 164-172). -/
structure RoleCheckData where
  userId : String
  orgId : String
  workspaceId : Option String
  objectType : Option String
  objectId : Option String
  roles : List String
  matchMode : MatchMode
deriving DecidableEq, Repr

/-- An outbound POST, with its JSON payload and the value `v` of the
`Authorization: Bearer v` header attached to it. -/
structure OutboundRequest (β : Type) where
  data : β
  authorizationBearer : String
deriving DecidableEq, Repr

/-- Body of a check-permission response: the `hasPermission` field the
code reads via `Boolean(response.data?.hasPermission)`. -/
structure PermissionCheckResponseBody where
  hasPermission : Option Bool
deriving DecidableEq, Repr

/-- Body of a check-role response: the `hasRole` field. -/
structure RoleCheckResponseBody where
  hasRole : Option Bool
deriving DecidableEq, Repr

/-- `AuthValidatorService.checkPermission` (lines 99-145): returns the
request it sends (payload and bearer header) and the value or exception
of the call, given the outcome `net` of the POST. -/
def checkPermission (net : HttpOutcome PermissionCheckResponseBody) (user : User)
    (permissions : List String) (m : MatchMode) (ctx : AccessContext) :
    OutboundRequest PermissionCheckData × Except AuthError Bool :=
  (⟨⟨user.sub, ctx.orgId, ctx.workspaceId, ctx.objectType, ctx.objectId,
      permissions, m⟩, user.accessToken⟩,
   match axiosOf net with
   | .ok body => .ok (truthyField body.hasPermission)
   | .err st =>
     if isUnavailable st then .error .serviceUnavailable
     else .ok false)

/-- `AuthValidatorService.checkRole` (lines 155-201). -/
def checkRole (net : HttpOutcome RoleCheckResponseBody) (user : User)
    (roles : List String) (m : MatchMode) (ctx : AccessContext) :
    OutboundRequest RoleCheckData × Except AuthError Bool :=
  (⟨⟨user.sub, ctx.orgId, ctx.workspaceId, ctx.objectType,
      ctx.objectId, roles, m⟩, user.accessToken⟩,
   match axiosOf net with
   | .ok body => .ok (truthyField body.hasRole)
   | .err st =>
     if isUnavailable st then .error .serviceUnavailable
     else .ok false)

/-- The value the reflector yields for the `permissions` / `roles`
metadata key: an array of strings, a single string, or nothing. -/
abbrev ReflectedList := Option (List String ⊕ String)

/-- The normalization in the guards (permission.guard.ts 34-38 and
role.guard.ts 34-38): an array is kept, a single string is wrapped,
anything else becomes `undefined`. -/
def normalizeRequired : ReflectedList → Option (List String)
  | some (.inl l) => some l
  | some (.inr s) => some [s]
  | none => none

/-- The parts of the express request a guard reads: `request.user` and the
context headers (each header value already coerced to a string when
present). -/
structure GuardRequest where
  user : Option User
  xOrgId : Option String
  xWorkspaceId : Option String
  xObjectId : Option String
deriving Repr

/-- JS `String.prototype.trim`: strip leading and trailing whitespace.
(Defined over the character list so that it evaluates in the kernel.) -/
def jsTrim (s : String) : String :=
  String.mk ((s.data.dropWhile Char.isWhitespace).reverse.dropWhile
    Char.isWhitespace).reverse

/-- `String(request.headers['x-org-id'] || '').trim()`. -/
def orgIdOf (req : GuardRequest) : String := jsTrim (req.xOrgId.getD "")

/-- Result of one guard `canActivate` call: the returned value or the
thrown exception, and whether the guard invoked the validator (and hence
whether an outbound network call to the authority could occur). -/
structure GuardOutcome where
  result : Except AuthError Bool
  validatorCalled : Bool
deriving Repr

/-- `PermissionGuard.canActivate` (permission.guard.ts 24-90).
`requiredPermissions` and `matchKey` are the two reflector reads;
`checkResult` is the value returned or exception thrown by
`authValidator.checkPermission` when the guard reaches that call.
A `ServiceUnavailableException` is re-thrown as-is (line 76-79); a false
decision and every other exception become `ForbiddenException`. -/
def permissionGuardCanActivate (requiredPermissions : ReflectedList)
    (_matchKey : Option MatchMode) (req : GuardRequest)
    (checkResult : Except AuthError Bool) : GuardOutcome :=
  match normalizeRequired requiredPermissions with
  | none => ⟨.ok true, false⟩
  | some ps =>
    if ps.isEmpty then ⟨.ok true, false⟩
    else
      match req.user with
      | none => ⟨.error .forbidden, false⟩
      | some u =>
        if u.sub = "" then ⟨.error .forbidden, false⟩
        else if orgIdOf req = "" then ⟨.error .badRequest, false⟩
        else
          match checkResult with
          | .ok true => ⟨.ok true, true⟩
          | .ok false => ⟨.error .forbidden, true⟩
          | .error e =>
            if e = .serviceUnavailable then ⟨.error .serviceUnavailable, true⟩
            else ⟨.error .forbidden, true⟩

/-- `RoleGuard.canActivate` (role.guard.ts 24-90), structurally identical
to the permission guard with `roles` metadata and `checkRole`. -/
def roleGuardCanActivate (requiredRoles : ReflectedList)
    (_matchKey : Option MatchMode) (req : GuardRequest)
    (checkResult : Except AuthError Bool) : GuardOutcome :=
  match normalizeRequired requiredRoles with
  | none => ⟨.ok true, false⟩
  | some rs =>
    if rs.isEmpty then ⟨.ok true, false⟩
    else
      match req.user with
      | none => ⟨.error .forbidden, false⟩
      | some u =>
        if u.sub = "" then ⟨.error .forbidden, false⟩
        else if orgIdOf req = "" then ⟨.error .badRequest, false⟩
        else
          match checkResult with
          | .ok true => ⟨.ok true, true⟩
          | .ok false => ⟨.error .forbidden, true⟩
          | .error e =>
            if e = .serviceUnavailable then ⟨.error .serviceUnavailable, true⟩
            else ⟨.error .forbidden, true⟩

theorem mapGet_mapSet_self (m : TokenCache) (k : String) (e : CacheEntry) :
    mapGet (mapSet m k e) k = some e := by
  induction m with
  | nil => simp [mapSet, mapGet]
  | cons kv rest ih =>
    obtain ⟨k', v⟩ := kv
    by_cases h : k' = k
    · simp [mapSet, mapGet, h]
    · simp [mapSet, mapGet, h, ih]

/-- Claim C1: for a `validateToken` call not served from the cache, a
transport-layer failure (no response, hence no HTTP status) or a response
with status ≥ 500 throws `ServiceUnavailableException`, and a response
with any other (valid, non-2xx) error status throws
`UnauthorizedException`. -/
theorem validateToken_error_classification (dev : Bool) (now : Nat)
    (cache : TokenCache) (token : String)
    (hmiss : cacheLookup dev cache token now = none) :
    (validateToken dev now .transportError cache token).result
      = .error .serviceUnavailable
    ∧ (∀ s b, 500 ≤ s →
        (validateToken dev now (.response s b) cache token).result
          = .error .serviceUnavailable)
    ∧ (∀ s b, 100 ≤ s → ¬(200 ≤ s ∧ s < 300) → s < 500 →
        (validateToken dev now (.response s b) cache token).result
          = .error .unauthorized) := by
  refine ⟨?_, ?_, ?_⟩
  · simp [validateToken, hmiss, axiosOf, isUnavailable]
  · intro s b hs
    have h2 : ¬(200 ≤ s ∧ s < 300) := by omega
    simp [validateToken, hmiss, axiosOf, isUnavailable, h2, hs]
  · intro s b h100 h2xx h500
    have h0 : s ≠ 0 := by omega
    have h5 : ¬(500 ≤ s) := by omega
    simp [validateToken, hmiss, axiosOf, isUnavailable, h2xx, h0, h5]

theorem validateToken_error_classification_witness :
    cacheLookup false [] "tok" 0 = none
    ∧ (validateToken false 0
        (.response 404 ⟨some true, "u1", none, none⟩) [] "tok").result
        = .error .unauthorized :=
  ⟨rfl, (validateToken_error_classification false 0 [] "tok" rfl).2.2
    404 ⟨some true, "u1", none, none⟩ (by decide) (by decide) (by decide)⟩

/-- Claim C8: in development mode the cache is fully bypassed: the lookup
always misses, every `validateToken` call issues a network request
whatever the cache holds, and the cache is never written. -/
theorem dev_mode_bypasses_cache (now : Nat) (net : HttpOutcome IntrospectionBody)
    (cache : TokenCache) (token : String) :
    cacheLookup true cache token now = none
    ∧ (validateToken true now net cache token).networkCalled = true
    ∧ (validateToken true now net cache token).cache = cache := by
  refine ⟨rfl, ?_, ?_⟩ <;>
    cases net with
    | transportError => simp [validateToken, cacheLookup, axiosOf, isUnavailable]
    | response s b =>
      by_cases h2 : 200 ≤ s ∧ s < 300 <;>
        by_cases ha : truthyField b.active = false <;>
        simp [validateToken, cacheLookup, axiosOf, isUnavailable, h2, ha] <;>
        split <;> simp

/-- Claim C10: a `validateToken` call that fails (for any reason: inactive
token, 4xx, 5xx, or transport failure) leaves the cache exactly as it
was, and while a token misses in the cache every `validateToken` call for
it issues a network request. -/
theorem failed_validation_leaves_cache_unchanged (dev : Bool) (now : Nat)
    (net : HttpOutcome IntrospectionBody) (cache : TokenCache) (token : String)
    (e : AuthError)
    (hfail : (validateToken dev now net cache token).result = .error e) :
    (validateToken dev now net cache token).cache = cache
    ∧ (∀ now' net', cacheLookup dev cache token now' = none →
        (validateToken dev now' net' cache token).networkCalled = true) := by
  constructor
  · cases hc : cacheLookup dev cache token now with
    | some u => simp [validateToken, hc] at hfail
    | none =>
      cases hn : axiosOf net with
      | ok body =>
        by_cases ha : truthyField body.active = false
        · simp [validateToken, hc, hn, ha]
        · simp [validateToken, hc, hn, ha] at hfail
      | err st =>
        by_cases hu : isUnavailable st = true <;> simp [validateToken, hc, hn, hu]
  · intro now' net' hmiss
    cases hn : axiosOf net' with
    | ok body =>
      by_cases ha : truthyField body.active = false <;>
        simp [validateToken, hmiss, hn, ha]
    | err st =>
      by_cases hu : isUnavailable st = true <;> simp [validateToken, hmiss, hn, hu]

theorem failed_validation_leaves_cache_unchanged_witness :
    (validateToken false 5 .transportError [] "tok").result
      = .error .serviceUnavailable
    ∧ (validateToken false 5 .transportError [] "tok").cache = [] :=
  ⟨rfl, (failed_validation_leaves_cache_unchanged false 5 .transportError [] "tok"
    .serviceUnavailable rfl).1⟩

/-- Claim C3: with caching enabled (not development mode), after a
successful validation at time `t` the token is served from the cache by
any second call strictly before `t + 30000` ms — no network call, same
`User` — and from `t + 30000` ms on the entry is logically absent: the
lookup misses. -/
theorem validateToken_cache_roundtrip (t : Nat) (s : Nat)
    (body : IntrospectionBody) (cache : TokenCache) (token : String)
    (hs : 200 ≤ s ∧ s < 300) (hactive : truthyField body.active = true)
    (hmiss : cacheLookup false cache token t = none) :
    ∃ u,
      (validateToken false t (.response s body) cache token).result = .ok u
      ∧ (validateToken false t (.response s body) cache token).networkCalled = true
      ∧ (∀ t' net', t' < t + 30000 →
          validateToken false t' net'
              (validateToken false t (.response s body) cache token).cache token
            = ⟨.ok u, (validateToken false t (.response s body) cache token).cache,
                false⟩)
      ∧ (∀ t', t + 30000 ≤ t' →
          cacheLookup false
              (validateToken false t (.response s body) cache token).cache
              token t' = none) := by
  have hax : axiosOf (β := IntrospectionBody) (.response s body) = .ok body := by
    simp [axiosOf, hs]
  have hval : validateToken false t (.response s body) cache token =
      ⟨.ok ⟨body.sub, body.role, body.permissions, token⟩,
        mapSet cache token
          ⟨⟨body.sub, body.role, body.permissions, token⟩,
            t + INTROSPECTION_TTL_MS⟩,
        true⟩ := by
    simp [validateToken, hmiss, hax, hactive]
  refine ⟨⟨body.sub, body.role, body.permissions, token⟩, ?_, ?_, ?_, ?_⟩
  · rw [hval]
  · rw [hval]
  · intro t' net' ht'
    rw [hval]
    have hget : cacheLookup false
        (mapSet cache token
          ⟨⟨body.sub, body.role, body.permissions, token⟩,
            t + INTROSPECTION_TTL_MS⟩) token t'
        = some ⟨body.sub, body.role, body.permissions, token⟩ := by
      simp [cacheLookup, mapGet_mapSet_self, INTROSPECTION_TTL_MS, ht']
    simp [validateToken, hget]
  · intro t' ht'
    rw [hval]
    have hnl : ¬ (t' < t + INTROSPECTION_TTL_MS) := by
      simp [INTROSPECTION_TTL_MS]; omega
    simp [cacheLookup, mapGet_mapSet_self, hnl]

theorem validateToken_cache_roundtrip_witness :
    (200 ≤ 200 ∧ 200 < 300)
    ∧ truthyField (IntrospectionBody.active ⟨some true, "u1", none, none⟩) = true
    ∧ cacheLookup false [] "T1" 0 = none
    ∧ ∃ u,
      (validateToken false 0
          (.response 200 ⟨some true, "u1", none, none⟩) [] "T1").result = .ok u
      ∧ (validateToken false 0
          (.response 200 ⟨some true, "u1", none, none⟩) [] "T1").networkCalled = true
      ∧ (∀ t' net', t' < 0 + 30000 →
          validateToken false t' net'
              (validateToken false 0
                (.response 200 ⟨some true, "u1", none, none⟩) [] "T1").cache "T1"
            = ⟨.ok u,
                (validateToken false 0
                  (.response 200 ⟨some true, "u1", none, none⟩) [] "T1").cache,
                false⟩)
      ∧ (∀ t', 0 + 30000 ≤ t' →
          cacheLookup false
              (validateToken false 0
                (.response 200 ⟨some true, "u1", none, none⟩) [] "T1").cache
              "T1" t' = none) :=
  ⟨⟨by decide, by decide⟩, rfl, rfl,
    validateToken_cache_roundtrip 0 200 ⟨some true, "u1", none, none⟩ [] "T1"
      ⟨by decide, by decide⟩ rfl rfl⟩

/-- How a guard translates the value returned or exception thrown by its
validator call (the tail of both `canActivate` bodies, lines 61-89): a true
decision passes, a false decision and every exception other than
`ServiceUnavailableException` become `ForbiddenException`, and
`ServiceUnavailableException` is re-raised as-is. -/
def guardVerdict (cr : Except AuthError Bool) : Except AuthError Bool :=
  match cr with
  | .ok true => .ok true
  | .ok false => .error .forbidden
  | .error e =>
    if e = .serviceUnavailable then .error .serviceUnavailable
    else .error .forbidden

theorem permissionGuard_called_result (rl : ReflectedList) (mk : Option MatchMode)
    (req : GuardRequest) (cr : Except AuthError Bool)
    (h : (permissionGuardCanActivate rl mk req cr).validatorCalled = true) :
    (permissionGuardCanActivate rl mk req cr).result = guardVerdict cr := by
  unfold permissionGuardCanActivate at h ⊢
  repeat' split at h
  all_goals simp_all [guardVerdict]

theorem roleGuard_called_result (rl : ReflectedList) (mk : Option MatchMode)
    (req : GuardRequest) (cr : Except AuthError Bool)
    (h : (roleGuardCanActivate rl mk req cr).validatorCalled = true) :
    (roleGuardCanActivate rl mk req cr).result = guardVerdict cr := by
  unfold roleGuardCanActivate at h ⊢
  repeat' split at h
  all_goals simp_all [guardVerdict]

/-- Claim C2: a transport failure (including a timeout or any error with
no HTTP status) or a status ≥ 500 makes `checkPermission` and `checkRole`
throw `ServiceUnavailableException`, and whenever a guard actually
invoked the validator and got that exception, it re-raises exactly
`ServiceUnavailableException`, not a forbidden outcome. -/
theorem accessCheck_unavailable_propagation (user : User)
    (subjects : List String) (m : MatchMode) (ctx : AccessContext)
    (rl : ReflectedList) (mk : Option MatchMode) (req : GuardRequest) :
    ((checkPermission .transportError user subjects m ctx).2
        = .error .serviceUnavailable)
    ∧ (∀ s b, 500 ≤ s →
        (checkPermission (.response s b) user subjects m ctx).2
          = .error .serviceUnavailable)
    ∧ ((checkRole .transportError user subjects m ctx).2
        = .error .serviceUnavailable)
    ∧ (∀ s b, 500 ≤ s →
        (checkRole (.response s b) user subjects m ctx).2
          = .error .serviceUnavailable)
    ∧ ((permissionGuardCanActivate rl mk req
          (.error .serviceUnavailable)).validatorCalled = true →
        (permissionGuardCanActivate rl mk req
          (.error .serviceUnavailable)).result = .error .serviceUnavailable)
    ∧ ((roleGuardCanActivate rl mk req
          (.error .serviceUnavailable)).validatorCalled = true →
        (roleGuardCanActivate rl mk req
          (.error .serviceUnavailable)).result = .error .serviceUnavailable) := by
  refine ⟨?_, ?_, ?_, ?_, ?_, ?_⟩
  · simp [checkPermission, axiosOf, isUnavailable]
  · intro s b hs
    have h2 : ¬(200 ≤ s ∧ s < 300) := by omega
    simp [checkPermission, axiosOf, isUnavailable, h2, hs]
  · simp [checkRole, axiosOf, isUnavailable]
  · intro s b hs
    have h2 : ¬(200 ≤ s ∧ s < 300) := by omega
    simp [checkRole, axiosOf, isUnavailable, h2, hs]
  · intro h
    rw [permissionGuard_called_result rl mk req _ h]
    simp [guardVerdict]
  · intro h
    rw [roleGuard_called_result rl mk req _ h]
    simp [guardVerdict]

theorem accessCheck_unavailable_propagation_witness :
    (500 ≤ 503)
    ∧ (checkPermission (.response 503 ⟨some true⟩)
        ⟨"u1", none, none, "tok"⟩ ["p"] .all ⟨"org", none, none, none⟩).2
        = .error .serviceUnavailable
    ∧ ((permissionGuardCanActivate (some (.inl ["p"])) (some .all)
          ⟨some ⟨"u1", none, none, "tok"⟩, some "org", none, none⟩
          (.error .serviceUnavailable)).validatorCalled = true →
        (permissionGuardCanActivate (some (.inl ["p"])) (some .all)
          ⟨some ⟨"u1", none, none, "tok"⟩, some "org", none, none⟩
          (.error .serviceUnavailable)).result = .error .serviceUnavailable) :=
  ⟨by decide,
    (accessCheck_unavailable_propagation ⟨"u1", none, none, "tok"⟩ ["p"] .all
      ⟨"org", none, none, none⟩ (some (.inl ["p"])) (some .all)
      ⟨some ⟨"u1", none, none, "tok"⟩, some "org", none, none⟩).2.1
      503 ⟨some true⟩ (by decide),
    (accessCheck_unavailable_propagation ⟨"u1", none, none, "tok"⟩ ["p"] .all
      ⟨"org", none, none, none⟩ (some (.inl ["p"])) (some .all)
      ⟨some ⟨"u1", none, none, "tok"⟩, some "org", none, none⟩).2.2.2.2.1⟩

/-- Claim C4: an access-check response with a valid non-2xx, non-5xx
status makes `checkPermission` / `checkRole` return `false` rather than
throw, and a success-status response yields the boolean decision field of
the body, with an absent field treated as `false`. -/
theorem accessCheck_response_interpretation (user : User)
    (subjects : List String) (m : MatchMode) (ctx : AccessContext) :
    (∀ s b, 100 ≤ s → ¬(200 ≤ s ∧ s < 300) → s < 500 →
      (checkPermission (.response s b) user subjects m ctx).2 = .ok false)
    ∧ (∀ s b, 200 ≤ s ∧ s < 300 →
      (checkPermission (.response s b) user subjects m ctx).2
        = .ok (truthyField b.hasPermission))
    ∧ (∀ s, 200 ≤ s ∧ s < 300 →
      (checkPermission (.response s ⟨none⟩) user subjects m ctx).2 = .ok false)
    ∧ (∀ s b, 100 ≤ s → ¬(200 ≤ s ∧ s < 300) → s < 500 →
      (checkRole (.response s b) user subjects m ctx).2 = .ok false)
    ∧ (∀ s b, 200 ≤ s ∧ s < 300 →
      (checkRole (.response s b) user subjects m ctx).2
        = .ok (truthyField b.hasRole))
    ∧ (∀ s, 200 ≤ s ∧ s < 300 →
      (checkRole (.response s ⟨none⟩) user subjects m ctx).2 = .ok false) := by
  refine ⟨?_, ?_, ?_, ?_, ?_, ?_⟩
  · intro s b h100 h2xx h500
    have h0 : s ≠ 0 := by omega
    have h5 : ¬(500 ≤ s) := by omega
    simp [checkPermission, axiosOf, isUnavailable, h2xx, h0, h5]
  · intro s b hs
    simp [checkPermission, axiosOf, hs]
  · intro s hs
    simp [checkPermission, axiosOf, hs, truthyField]
  · intro s b h100 h2xx h500
    have h0 : s ≠ 0 := by omega
    have h5 : ¬(500 ≤ s) := by omega
    simp [checkRole, axiosOf, isUnavailable, h2xx, h0, h5]
  · intro s b hs
    simp [checkRole, axiosOf, hs]
  · intro s hs
    simp [checkRole, axiosOf, hs, truthyField]

theorem accessCheck_response_interpretation_witness :
    (100 ≤ 403 ∧ ¬(200 ≤ 403 ∧ 403 < 300) ∧ 403 < 500)
    ∧ (checkPermission (.response 403 ⟨some true⟩)
        ⟨"u1", none, none, "tok"⟩ ["p"] .all ⟨"org", none, none, none⟩).2
        = .ok false
    ∧ (checkRole (.response 200 ⟨some true⟩)
        ⟨"u1", none, none, "tok"⟩ ["r"] .any ⟨"org", none, none, none⟩).2
        = .ok (truthyField (some true)) :=
  ⟨⟨by decide, by decide, by decide⟩,
    (accessCheck_response_interpretation ⟨"u1", none, none, "tok"⟩ ["p"] .all
      ⟨"org", none, none, none⟩).1 403 ⟨some true⟩
      (by decide) (by decide) (by decide),
    (accessCheck_response_interpretation ⟨"u1", none, none, "tok"⟩ ["r"] .any
      ⟨"org", none, none, none⟩).2.2.2.2.1 200 ⟨some true⟩
      ⟨by decide, by decide⟩⟩

/-- Claim C5: when a guard has invoked its access check and an error that
is not `ServiceUnavailableException` comes back (including any
unclassified runtime error, e.g. from a malformed authority response),
the guard throws `ForbiddenException`; a false decision also ends in
`ForbiddenException`, never in silent success. -/
theorem guard_fails_closed (rl : ReflectedList) (mk : Option MatchMode)
    (req : GuardRequest) (e : AuthError)
    (he : e ≠ .serviceUnavailable) :
    ((permissionGuardCanActivate rl mk req (.error e)).validatorCalled = true →
      (permissionGuardCanActivate rl mk req (.error e)).result
        = .error .forbidden)
    ∧ ((roleGuardCanActivate rl mk req (.error e)).validatorCalled = true →
      (roleGuardCanActivate rl mk req (.error e)).result = .error .forbidden)
    ∧ ((permissionGuardCanActivate rl mk req (.ok false)).validatorCalled = true →
      (permissionGuardCanActivate rl mk req (.ok false)).result
        = .error .forbidden)
    ∧ ((roleGuardCanActivate rl mk req (.ok false)).validatorCalled = true →
      (roleGuardCanActivate rl mk req (.ok false)).result
        = .error .forbidden) := by
  refine ⟨?_, ?_, ?_, ?_⟩
  · intro h
    rw [permissionGuard_called_result rl mk req _ h]
    simp [guardVerdict, he]
  · intro h
    rw [roleGuard_called_result rl mk req _ h]
    simp [guardVerdict, he]
  · intro h
    rw [permissionGuard_called_result rl mk req _ h]
    simp [guardVerdict]
  · intro h
    rw [roleGuard_called_result rl mk req _ h]
    simp [guardVerdict]

theorem guard_fails_closed_witness :
    (AuthError.otherError "malformed authority response"
        ≠ AuthError.serviceUnavailable)
    ∧ ((permissionGuardCanActivate (some (.inl ["p"])) (some .all)
          ⟨some ⟨"u1", none, none, "tok"⟩, some "org", none, none⟩
          (.error (.otherError "malformed authority response"))).validatorCalled
            = true →
        (permissionGuardCanActivate (some (.inl ["p"])) (some .all)
          ⟨some ⟨"u1", none, none, "tok"⟩, some "org", none, none⟩
          (.error (.otherError "malformed authority response"))).result
            = .error .forbidden) :=
  ⟨by decide,
    (guard_fails_closed (some (.inl ["p"])) (some .all)
      ⟨some ⟨"u1", none, none, "tok"⟩, some "org", none, none⟩
      (.otherError "malformed authority response") (by decide)).1⟩

/-- Claim C6 fails as stated: a response with status 500 whose body says
`active: false` is rejected by axios before the `active` check ever runs,
so `validateToken` throws `ServiceUnavailableException`, not the
`UnauthorizedException` the claim demands for every `active: false`
body. -/
theorem inactive_body_5xx_counterexample :
    (validateToken false 0
        (.response 500 ⟨some false, "u1", none, none⟩) [] "tok").result
      = .error .serviceUnavailable
    ∧ (validateToken false 0
        (.response 500 ⟨some false, "u1", none, none⟩) [] "tok").result
      ≠ .error .unauthorized := by
  refine ⟨rfl, ?_⟩
  intro hc
  have h1 : (validateToken false 0
      (.response 500 ⟨some false, "u1", none, none⟩) [] "tok").result
      = .error .serviceUnavailable := rfl
  rw [h1] at hc
  simp at hc

/-- Claim C6 amended: for a `validateToken` call not served from the
cache, any response with a valid status below 500 whose body carries
`active: false` makes `validateToken` throw `UnauthorizedException`
(directly via the active check on a 2xx, via the status classifier
otherwise); on a status ≥ 500 the body is never inspected and
`ServiceUnavailableException` is thrown instead. -/
theorem inactive_token_unauthorized (dev : Bool) (now : Nat)
    (cache : TokenCache) (token : String) (s : Nat) (b : IntrospectionBody)
    (hmiss : cacheLookup dev cache token now = none)
    (h100 : 100 ≤ s) (h500 : s < 500) (hinactive : b.active = some false) :
    (validateToken dev now (.response s b) cache token).result
      = .error .unauthorized := by
  by_cases h2 : 200 ≤ s ∧ s < 300
  · simp [validateToken, hmiss, axiosOf, h2, hinactive, truthyField]
  · have h0 : s ≠ 0 := by omega
    have h5 : ¬(500 ≤ s) := by omega
    simp [validateToken, hmiss, axiosOf, isUnavailable, h2, h0, h5]

theorem inactive_token_unauthorized_witness :
    cacheLookup false [] "T2" 0 = none
    ∧ (100 ≤ 200 ∧ 200 < 500)
    ∧ IntrospectionBody.active ⟨some false, "u1", none, none⟩ = some false
    ∧ (validateToken false 0
        (.response 200 ⟨some false, "u1", none, none⟩) [] "T2").result
        = .error .unauthorized :=
  ⟨rfl, ⟨by decide, by decide⟩, rfl,
    inactive_token_unauthorized false 0 [] "T2" 200
      ⟨some false, "u1", none, none⟩ rfl (by decide) (by decide) rfl⟩

/-- Claim C7: when the `x-org-id` header is absent, empty or
whitespace-only, each guard throws `BadRequestException` without ever
invoking the validator (hence with no network call to the authority),
whatever the access check would have answered. -/
theorem missing_org_id_bad_request (rl : ReflectedList) (mk : Option MatchMode)
    (req : GuardRequest) (cr : Except AuthError Bool) (ps : List String)
    (u : User) (hps : normalizeRequired rl = some ps) (hne : ps ≠ [])
    (hu : req.user = some u) (hsub : u.sub ≠ "")
    (horg : orgIdOf req = "") :
    permissionGuardCanActivate rl mk req cr
      = ⟨.error .badRequest, false⟩
    ∧ roleGuardCanActivate rl mk req cr = ⟨.error .badRequest, false⟩ := by
  have hpe : ps.isEmpty = false := by
    cases ps with
    | nil => exact absurd rfl hne
    | cons a l => rfl
  constructor
  · simp [permissionGuardCanActivate, hps, hpe, hu, hsub, horg]
  · simp [roleGuardCanActivate, hps, hpe, hu, hsub, horg]

theorem missing_org_id_bad_request_witness :
    normalizeRequired (some (.inl ["p"])) = some ["p"]
    ∧ (["p"] ≠ ([] : List String))
    ∧ GuardRequest.user
        ⟨some ⟨"u1", none, none, "tok"⟩, some "   ", none, none⟩
        = some ⟨"u1", none, none, "tok"⟩
    ∧ User.sub ⟨"u1", none, none, "tok"⟩ ≠ ""
    ∧ orgIdOf ⟨some ⟨"u1", none, none, "tok"⟩, some "   ", none, none⟩ = ""
    ∧ permissionGuardCanActivate (some (.inl ["p"])) (some .all)
        ⟨some ⟨"u1", none, none, "tok"⟩, some "   ", none, none⟩ (.ok true)
        = ⟨.error .badRequest, false⟩
    ∧ roleGuardCanActivate (some (.inl ["p"])) (some .all)
        ⟨some ⟨"u1", none, none, "tok"⟩, some "   ", none, none⟩ (.ok true)
        = ⟨.error .badRequest, false⟩ :=
  ⟨rfl, by decide, rfl, by decide, by decide,
    (missing_org_id_bad_request (some (.inl ["p"])) (some .all)
      ⟨some ⟨"u1", none, none, "tok"⟩, some "   ", none, none⟩ (.ok true)
      ["p"] ⟨"u1", none, none, "tok"⟩ rfl (by decide) rfl (by decide)
      (by decide)).1,
    (missing_org_id_bad_request (some (.inl ["p"])) (some .all)
      ⟨some ⟨"u1", none, none, "tok"⟩, some "   ", none, none⟩ (.ok true)
      ["p"] ⟨"u1", none, none, "tok"⟩ rfl (by decide) rfl (by decide)
      (by decide)).2⟩

/-- Claim C9 fails as stated: `validateToken` copies `response.data.sub`
into the `User` with no non-emptiness check, so an introspection response
`{active: true, sub: ""}` yields a successful validation whose `User` has
an empty subject. -/
theorem empty_subject_counterexample :
    (validateToken false 0
        (.response 200 ⟨some true, "", none, none⟩) [] "tok").result
      = .ok ⟨"", none, none, "tok"⟩
    ∧ User.sub ⟨"", none, none, "tok"⟩ = "" :=
  ⟨rfl, rfl⟩

/-- Claim C9 amended: every `User` returned by a successful
`validateToken` call carries `sub` equal to the response body's `sub`
field (which the code does not check for non-emptiness) and
`accessToken` equal to the exact raw token validated, and every
`checkPermission` / `checkRole` call made with that `User` forwards that
token as the `Authorization: Bearer` credential. -/
theorem user_credential_construction (dev : Bool) (now : Nat)
    (cache : TokenCache) (token : String) (s : Nat)
    (body : IntrospectionBody)
    (hmiss : cacheLookup dev cache token now = none)
    (hs : 200 ≤ s ∧ s < 300) (hactive : truthyField body.active = true) :
    ∃ u,
      (validateToken dev now (.response s body) cache token).result = .ok u
      ∧ u.accessToken = token
      ∧ u.sub = body.sub
      ∧ (∀ net subjects m ctx,
          (checkPermission net u subjects m ctx).1.authorizationBearer = token)
      ∧ (∀ net subjects m ctx,
          (checkRole net u subjects m ctx).1.authorizationBearer = token) := by
  refine ⟨⟨body.sub, body.role, body.permissions, token⟩, ?_, rfl, rfl, ?_, ?_⟩
  · simp [validateToken, hmiss, axiosOf, hs, hactive]
  · intro net subjects m ctx
    rfl
  · intro net subjects m ctx
    rfl

theorem user_credential_construction_witness :
    cacheLookup false [] "rawTok" 0 = none
    ∧ (200 ≤ 200 ∧ 200 < 300)
    ∧ truthyField (IntrospectionBody.active ⟨some true, "u1", none, none⟩) = true
    ∧ ∃ u,
      (validateToken false 0
          (.response 200 ⟨some true, "u1", none, none⟩) [] "rawTok").result
        = .ok u
      ∧ u.accessToken = "rawTok"
      ∧ u.sub = IntrospectionBody.sub ⟨some true, "u1", none, none⟩
      ∧ (∀ net subjects m ctx,
          (checkPermission net u subjects m ctx).1.authorizationBearer
            = "rawTok")
      ∧ (∀ net subjects m ctx,
          (checkRole net u subjects m ctx).1.authorizationBearer = "rawTok") :=
  ⟨rfl, ⟨by decide, by decide⟩, rfl,
    user_credential_construction false 0 [] "rawTok" 200
      ⟨some true, "u1", none, none⟩ rfl ⟨by decide, by decide⟩ rfl⟩

end NestAuth
